import Mathlib

/-!
Shallow embedding of `rcompute.h`, a single-header compute-shader wrapper.
The device side (OpenGL and GLFW) is modelled as explicit state: object
tables for shaders, programs, buffers, textures, windows and timer
queries, the process-wide last-error slot, and an append-only trace of
device calls.  Device outcomes that the library merely observes (compile
and link status, diagnostic logs, file contents, uniform locations,
elapsed-time query results) are supplied by an environment of oracles.
Byte and float parameters that the library only passes through are
carried opaquely (bytes as `Nat`, floats as raw bit patterns).
-/

namespace RCompute

/-- Raw 32-bit float bit pattern; the library never computes on float
values, it only forwards them to the device. -/
abbrev GLfloat := Nat

/-- OpenGL enum: GL_STATIC_DRAW. -/
def GL_STATIC_DRAW : Nat := 0x88E4

/-- OpenGL enum: GL_STREAM_COPY. -/
def GL_STREAM_COPY : Nat := 0x88E2

/-- OpenGL enum: GL_DYNAMIC_COPY. -/
def GL_DYNAMIC_COPY : Nat := 0x88EA

/-- OpenGL enum: GL_SHADER_STORAGE_BARRIER_BIT. -/
def GL_SHADER_STORAGE_BARRIER_BIT : Nat := 0x00002000

/-- OpenGL enum: GL_ALL_BARRIER_BITS (all bits set). -/
def GL_ALL_BARRIER_BITS : Nat := 0xFFFFFFFF

/-- OpenGL enum: GL_UNSIGNED_BYTE. -/
def GL_UNSIGNED_BYTE : Nat := 0x1401

/-- OpenGL enum: GL_INT. -/
def GL_INT : Nat := 0x1404

/-- OpenGL enum: GL_UNSIGNED_INT. -/
def GL_UNSIGNED_INT : Nat := 0x1405

/-- OpenGL enum: GL_FLOAT. -/
def GL_FLOAT : Nat := 0x1406

/-- OpenGL enum: GL_RED. -/
def GL_RED : Nat := 0x1903

/-- OpenGL enum: GL_RG. -/
def GL_RG : Nat := 0x8227

/-- OpenGL enum: GL_RGBA. -/
def GL_RGBA : Nat := 0x1908

/-- OpenGL enum: GL_RED_INTEGER. -/
def GL_RED_INTEGER : Nat := 0x8D94

/-- OpenGL enum: GL_RG_INTEGER. -/
def GL_RG_INTEGER : Nat := 0x8228

/-- OpenGL enum: GL_RGBA_INTEGER. -/
def GL_RGBA_INTEGER : Nat := 0x8D99

/-- OpenGL enum: GL_R32F. -/
def GL_R32F : Nat := 0x822E

/-- OpenGL enum: GL_RG32F. -/
def GL_RG32F : Nat := 0x8230

/-- OpenGL enum: GL_RGBA32F. -/
def GL_RGBA32F : Nat := 0x8814

/-- OpenGL enum: GL_R32I. -/
def GL_R32I : Nat := 0x8235

/-- OpenGL enum: GL_RG32I. -/
def GL_RG32I : Nat := 0x823B

/-- OpenGL enum: GL_RGBA32I. -/
def GL_RGBA32I : Nat := 0x8D82

/-- OpenGL enum: GL_R32UI. -/
def GL_R32UI : Nat := 0x8236

/-- OpenGL enum: GL_RG32UI. -/
def GL_RG32UI : Nat := 0x823C

/-- OpenGL enum: GL_RGBA32UI. -/
def GL_RGBA32UI : Nat := 0x8D70

/-- Buffer usage flag RCOMPUTE_STATIC from the `rcompute_usage` enum. -/
def RCOMPUTE_STATIC : Nat := 0

/-- Buffer usage flag RCOMPUTE_DYNAMIC from the `rcompute_usage` enum. -/
def RCOMPUTE_DYNAMIC : Nat := 1

/-- Buffer usage flag RCOMPUTE_STREAM from the `rcompute_usage` enum. -/
def RCOMPUTE_STREAM : Nat := 2

/-- One device (OpenGL or GLFW) call, recorded in an append-only trace so
that theorems can speak about which device operations a library call
issued. -/
inductive GLCall where
  | createShader (s : Nat)
  | deleteShader (s : Nat)
  | createProgram (p : Nat)
  | deleteProgram (p : Nat)
  | useProgram (p : Nat)
  | dispatchCompute (nx ny nz : Int)
  | memoryBarrier (mask : Nat)
  | genBuffers (b : Nat)
  | bindBuffer (b : Nat)
  | bindBufferBase (binding b : Nat)
  | bufferData (b : Nat) (size : Int) (usage : Nat)
  | bufferSubData (b : Nat) (offset size : Int)
  | deleteBuffers (b : Nat)
  | genTextures (t : Nat)
  | texImage2D (t : Nat) (w h : Int) (internal base ty : Nat)
  | texImage3D (t : Nat) (w h d : Int) (internal base ty : Nat)
  | deleteTextures (t : Nat)
  | genQueries (q : Nat)
  | beginQuery (q : Nat)
  | endQuery
  | uniform1i (loc : Int) (v : Int)
  | uniform1ui (loc : Int) (v : Nat)
  | uniform1f (loc : Int) (v : GLfloat)
  | uniform2f (loc : Int) (x y : GLfloat)
  | uniform3f (loc : Int) (x y z : GLfloat)
  | uniform4f (loc : Int) (x y z w : GLfloat)
  | uniformMatrix4fv (loc : Int) (m : List GLfloat)
  | createWindow (w : Nat)
  | destroyWindow (w : Nat)
  | glfwTerminateCall
deriving DecidableEq

/-- The `rcompute` context struct: a window handle (0 encodes NULL), the
active program handle, and the cached last-bound program handle. -/
structure rcompute where
  window : Nat
  program : Nat
  last_program : Nat
deriving DecidableEq

/-- Process-wide state: the library globals (`rcompute__last_error`,
`rcompute__glfw_initialized`, `rcompute__query_id`,
`rcompute__query_available`) together with the modelled device object
tables, the shader-storage buffer binding, the currently used program,
and the trace of device calls.  Buffer contents are byte lists. -/
structure RCState where
  lastError : List Char
  glfwInitialized : Bool
  queryId : Nat
  queryAvailable : Bool
  buffers : List (Nat × List Nat)
  nextBufName : Nat
  shaders : List Nat
  nextShaderName : Nat
  programs : List Nat
  nextProgName : Nat
  textures : List Nat
  nextTexName : Nat
  windows : List Nat
  nextWindow : Nat
  queries : List Nat
  nextQuery : Nat
  boundBuffer : Nat
  usedProgram : Nat
  calls : List GLCall
deriving DecidableEq

/-- Fresh process state: empty error slot, no objects, device names
starting at 1 (OpenGL and GLFW never hand out 0 as a valid name). -/
def initState : RCState :=
  { lastError := [], glfwInitialized := false, queryId := 0,
    queryAvailable := false, buffers := [], nextBufName := 1,
    shaders := [], nextShaderName := 1, programs := [], nextProgName := 1,
    textures := [], nextTexName := 1, windows := [], nextWindow := 1,
    queries := [], nextQuery := 1, boundBuffer := 0, usedProgram := 0,
    calls := [] }

/-- Oracles for device outcomes the library observes but does not
compute: GLFW init and window creation, GLEW init, compile and link
status and diagnostic logs keyed by shader source, the file system,
short-read faults, uniform-location lookup, and elapsed-time query
results in nanoseconds. -/
structure Env where
  glfwInitOk : Bool
  createWindowOk : Bool
  glewOk : Bool
  compileOk : List Char → Bool
  linkOk : List Char → Bool
  shaderLog : List Char → List Char
  programLog : List Char → List Char
  fs : List Char → Option (List Char)
  shortRead : List Char → Bool
  uniformLoc : Nat → List Char → Int
  elapsed : Nat → Nat

/-- Model of `rcompute__err`: snprintf into the 512-byte
`rcompute__last_error` buffer, hence truncation to 511 characters. -/
def rcompute__err (st : RCState) (txt : List Char) : RCState :=
  { st with lastError := txt.take 511 }

/-- Model of `glBindBuffer(GL_SHADER_STORAGE_BUFFER, b)`. -/
def glBindBuffer (b : Nat) (st : RCState) : RCState :=
  { st with boundBuffer := b, calls := st.calls ++ [GLCall.bindBuffer b] }

/-- Model of `glGenBuffers(1, &buf)`: reserves a fresh nonzero name. -/
def glGenBuffers (st : RCState) : Nat × RCState :=
  (st.nextBufName,
   { st with nextBufName := st.nextBufName + 1,
             calls := st.calls ++ [GLCall.genBuffers st.nextBufName] })

/-- Remove the entry for key `k` from a buffer table. -/
def eraseKey (k : Nat) (bs : List (Nat × List Nat)) : List (Nat × List Nat) :=
  bs.filter (fun pr => pr.1 != k)

/-- Model of `glBufferData`: (re)creates the data store of the bound
buffer with `size` bytes taken from `data`; a NULL `data` leaves the
store with unspecified contents, modelled here as zero bytes. -/
def glBufferData (size : Int) (data : Option (List Nat)) (usage : Nat)
    (st : RCState) : RCState :=
  let contents := match data with
    | some d => d.take size.toNat
    | none => List.replicate size.toNat 0
  { st with
      buffers := (st.boundBuffer, contents) :: eraseKey st.boundBuffer st.buffers,
      calls := st.calls ++ [GLCall.bufferData st.boundBuffer size usage] }

/-- Replace the contents stored for key `k`. -/
def updateKey (k : Nat) (v : List Nat) (bs : List (Nat × List Nat)) :
    List (Nat × List Nat) :=
  bs.map (fun pr => if pr.1 = k then (k, v) else pr)

/-- Model of `glBufferSubData` on the bound buffer: the device rejects a
negative offset or size or a range past the end of the data store (an
OpenGL error, no write); otherwise it splices the first `size` bytes of
`data` in at `offset`. -/
def glBufferSubData (offset size : Int) (data : List Nat) (st : RCState) :
    RCState :=
  let st := { st with
    calls := st.calls ++ [GLCall.bufferSubData st.boundBuffer offset size] }
  match List.lookup st.boundBuffer st.buffers with
  | none => st
  | some old =>
    if offset < 0 ∨ size < 0 ∨ (old.length : Int) < offset + size then st
    else
      let contents := old.take offset.toNat ++ data.take size.toNat ++
        old.drop (offset.toNat + size.toNat)
      { st with buffers := updateKey st.boundBuffer contents st.buffers }

/-- Model of `glDeleteBuffers(1, &buf)`: silently ignores names that are
not live buffer objects (OpenGL semantics). -/
def glDeleteBuffers (b : Nat) (st : RCState) : RCState :=
  { st with buffers := eraseKey b st.buffers,
            calls := st.calls ++ [GLCall.deleteBuffers b] }

/-- Model of `glCreateShader(GL_COMPUTE_SHADER)`. -/
def glCreateShader (st : RCState) : Nat × RCState :=
  (st.nextShaderName,
   { st with shaders := st.nextShaderName :: st.shaders,
             nextShaderName := st.nextShaderName + 1,
             calls := st.calls ++ [GLCall.createShader st.nextShaderName] })

/-- Model of `glDeleteShader`. -/
def glDeleteShader (s : Nat) (st : RCState) : RCState :=
  { st with shaders := st.shaders.erase s,
            calls := st.calls ++ [GLCall.deleteShader s] }

/-- Model of `glCreateProgram`. -/
def glCreateProgram (st : RCState) : Nat × RCState :=
  (st.nextProgName,
   { st with programs := st.nextProgName :: st.programs,
             nextProgName := st.nextProgName + 1,
             calls := st.calls ++ [GLCall.createProgram st.nextProgName] })

/-- Model of `glDeleteProgram`. -/
def glDeleteProgram (p : Nat) (st : RCState) : RCState :=
  { st with programs := st.programs.filter (fun q => q != p),
            calls := st.calls ++ [GLCall.deleteProgram p] }

/-- Model of `glUseProgram`. -/
def glUseProgram (p : Nat) (st : RCState) : RCState :=
  { st with usedProgram := p, calls := st.calls ++ [GLCall.useProgram p] }

/-- Model of `glDispatchCompute`. -/
def glDispatchCompute (nx ny nz : Int) (st : RCState) : RCState :=
  { st with calls := st.calls ++ [GLCall.dispatchCompute nx ny nz] }

/-- Model of `glMemoryBarrier`. -/
def glMemoryBarrier (mask : Nat) (st : RCState) : RCState :=
  { st with calls := st.calls ++ [GLCall.memoryBarrier mask] }

/-- Model of `glGenTextures(1, &tex)`. -/
def glGenTextures (st : RCState) : Nat × RCState :=
  (st.nextTexName,
   { st with textures := st.nextTexName :: st.textures,
             nextTexName := st.nextTexName + 1,
             calls := st.calls ++ [GLCall.genTextures st.nextTexName] })

/-- Model of `glfwCreateWindow` when creation succeeds. -/
def glfwCreateWindow (st : RCState) : Nat × RCState :=
  (st.nextWindow,
   { st with windows := st.nextWindow :: st.windows,
             nextWindow := st.nextWindow + 1,
             calls := st.calls ++ [GLCall.createWindow st.nextWindow] })

/-- Model of `glfwDestroyWindow`. -/
def glfwDestroyWindow (w : Nat) (st : RCState) : RCState :=
  { st with windows := st.windows.filter (fun v => v != w),
            calls := st.calls ++ [GLCall.destroyWindow w] }

/-- Model of `glfwTerminate`: destroys all remaining windows.  Note the
library does not reset its `rcompute__glfw_initialized` flag here,
mirroring the source. -/
def glfwTerminate (st : RCState) : RCState :=
  { st with windows := [], calls := st.calls ++ [GLCall.glfwTerminateCall] }

/-- Model of `rcompute_get_last_error`: NULL (none) while the error
buffer is empty, otherwise the buffer contents. -/
def rcompute_get_last_error (st : RCState) : Option (List Char) :=
  if st.lastError = [] then none else some st.lastError

/-- Model of `rcompute_init`.  A NULL context pointer gives up at once;
otherwise the context fields are reset, GLFW is initialised on first use,
a hidden window is created (on failure `glfwTerminate` is called and the
window field stays NULL), and GLEW is initialised.  None of the failure
paths writes the last-error slot, mirroring the source. -/
def rcompute_init (env : Env) (c : Option rcompute) (gl_major gl_minor : Int)
    (st : RCState) : Int × Option rcompute × RCState :=
  match c with
  | none => (0, none, st)
  | some _ =>
    let c : rcompute := { window := 0, program := 0, last_program := 0 }
    if ¬ st.glfwInitialized ∧ ¬ env.glfwInitOk then (0, some c, st)
    else
      let st := if st.glfwInitialized then st else { st with glfwInitialized := true }
      if ¬ env.createWindowOk then (0, some c, glfwTerminate st)
      else
        let (w, st) := glfwCreateWindow st
        let c := { c with window := w }
        if ¬ env.glewOk then (0, some c, st)
        else (1, some c, st)

/-- Model of `rcompute_compile`: create a compute shader, compile it (the
status and diagnostic log come from the environment), and on success link
it into a fresh program.  Note that on the compile-failure path the
function returns without deleting the shader object, exactly as the
source does; on the link path `glDeleteShader` runs before the link
status is checked. -/
def rcompute_compile (env : Env) (src : Option (List Char)) (st : RCState) :
    Nat × RCState :=
  match src with
  | none => (0, rcompute__err st (String.toList "Shader source is NULL"))
  | some s =>
    let (shader, st) := glCreateShader st
    if env.compileOk s = false then
      (0, rcompute__err st (env.shaderLog s))
    else
      let (prog, st) := glCreateProgram st
      let st := glDeleteShader shader st
      if env.linkOk s = false then
        (0, rcompute__err st (env.programLog s))
      else
        (prog, st)

/-- Model of C `strstr` over character lists: returns the split of the
haystack at the first occurrence of the needle, or none. -/
def strstr (hay pat : List Char) : Option (List Char × List Char) :=
  match hay with
  | [] => if pat.isPrefixOf ([] : List Char) then some ([], []) else none
  | c :: rest =>
    if pat.isPrefixOf (c :: rest) then some ([], c :: rest)
    else (strstr rest pat).map (fun pr => (c :: pr.1, pr.2))

/-- The define-emission loop of `rcompute_compile_with_defines`: each
non-NULL entry contributes one `#define <entry>` line followed by a
newline, in list order; NULL entries are skipped. -/
def rcompute__define_lines (defines : List (Option (List Char))) : List Char :=
  defines.foldr
    (fun d acc => match d with
      | some dd => String.toList "#define " ++ dd ++ ['\n'] ++ acc
      | none => acc)
    []

/-- The text transformation of `rcompute_compile_with_defines`: find the
first `#version` occurrence and the first newline at or after it; copy
the source through that newline, emit the define lines, then append the
rest of the source unchanged.  If either search fails, the define lines
are prepended to the unmodified source. -/
def rcompute_preprocess (src : List Char)
    (defines : List (Option (List Char))) : List Char :=
  match strstr src (String.toList "#version") with
  | some (before, fromV) =>
    match strstr fromV ['\n'] with
    | some (vline, fromNl) =>
      before ++ vline ++ fromNl.take 1 ++ rcompute__define_lines defines ++
        fromNl.drop 1
    | none => rcompute__define_lines defines ++ src
  | none => rcompute__define_lines defines ++ src

/-- Model of `rcompute_compile_with_defines`: NULL source is rejected
with an error; otherwise the preprocessed text is handed to
`rcompute_compile`.  The `malloc` of the scratch text buffer is assumed
to succeed. -/
def rcompute_compile_with_defines (env : Env) (src : Option (List Char))
    (defines : List (Option (List Char))) (st : RCState) : Nat × RCState :=
  match src with
  | none => (0, rcompute__err st (String.toList "Shader source is NULL"))
  | some s => rcompute_compile env (some (rcompute_preprocess s defines)) st

/-- Model of `rcompute_compile_file`: NULL path, unopenable file and
short read each fail with their own message; otherwise the file contents
are compiled.  File length comes from the file itself (fseek/ftell) and
the `malloc` of the text buffer is assumed to succeed. -/
def rcompute_compile_file (env : Env) (filepath : Option (List Char))
    (st : RCState) : Nat × RCState :=
  match filepath with
  | none => (0, rcompute__err st (String.toList "Filepath is NULL"))
  | some p =>
    match env.fs p with
    | none =>
      (0, rcompute__err st (String.toList "Failed to open shader file: " ++ p))
    | some content =>
      if env.shortRead p then
        (0, rcompute__err st (String.toList "Failed to read complete shader file"))
      else rcompute_compile env (some content) st

/-- Model of `rcompute_reload_shader`: compile the file first; only when
that yields a nonzero program is the old program deleted and the context
updated (with the bind cache reset to 0).  On any failure the context is
left untouched. -/
def rcompute_reload_shader (env : Env) (c : Option rcompute)
    (filepath : Option (List Char)) (st : RCState) :
    Int × Option rcompute × RCState :=
  match c, filepath with
  | none, _ => (0, none, rcompute__err st (String.toList "Invalid parameters for reload"))
  | some c, none => (0, some c, rcompute__err st (String.toList "Invalid parameters for reload"))
  | some c, some p =>
    let old_program := c.program
    let (new_program, st) := rcompute_compile_file env (some p) st
    if new_program = 0 then
      (0, some c, rcompute__err st (String.toList "Failed to reload shader"))
    else
      let st := if old_program ≠ 0 then glDeleteProgram old_program st else st
      (1, some { c with program := new_program, last_program := 0 }, st)

/-- Model of `rcompute_set_program`. -/
def rcompute_set_program (c : Option rcompute) (program : Nat)
    (st : RCState) : Option rcompute × RCState :=
  match c with
  | none => (none, rcompute__err st (String.toList "Invalid compute context"))
  | some c => (some { c with program := program }, st)

/-- Model of `rcompute_set_uniform_int`: NULL context or name is a
silent no-op; otherwise the cached-bind check runs (`glUseProgram` only
when the cache differs), the location is resolved, and an unresolved
location (-1) is silently skipped. -/
def rcompute_set_uniform_int (env : Env) (c : Option rcompute)
    (name : Option (List Char)) (value : Int) (st : RCState) :
    Option rcompute × RCState :=
  match c, name with
  | none, _ => (none, st)
  | some c, none => (some c, st)
  | some c, some nm =>
    let (c, st) :=
      if c.last_program ≠ c.program then
        ({ c with last_program := c.program }, glUseProgram c.program st)
      else (c, st)
    let loc := env.uniformLoc c.program nm
    if loc ≠ -1 then
      (some c, { st with calls := st.calls ++ [GLCall.uniform1i loc value] })
    else (some c, st)

/-- Model of `rcompute_set_uniform_uint` (same shape as the int
setter). -/
def rcompute_set_uniform_uint (env : Env) (c : Option rcompute)
    (name : Option (List Char)) (value : Nat) (st : RCState) :
    Option rcompute × RCState :=
  match c, name with
  | none, _ => (none, st)
  | some c, none => (some c, st)
  | some c, some nm =>
    let (c, st) :=
      if c.last_program ≠ c.program then
        ({ c with last_program := c.program }, glUseProgram c.program st)
      else (c, st)
    let loc := env.uniformLoc c.program nm
    if loc ≠ -1 then
      (some c, { st with calls := st.calls ++ [GLCall.uniform1ui loc value] })
    else (some c, st)

/-- Model of `rcompute_set_uniform_float`. -/
def rcompute_set_uniform_float (env : Env) (c : Option rcompute)
    (name : Option (List Char)) (value : GLfloat) (st : RCState) :
    Option rcompute × RCState :=
  match c, name with
  | none, _ => (none, st)
  | some c, none => (some c, st)
  | some c, some nm =>
    let (c, st) :=
      if c.last_program ≠ c.program then
        ({ c with last_program := c.program }, glUseProgram c.program st)
      else (c, st)
    let loc := env.uniformLoc c.program nm
    if loc ≠ -1 then
      (some c, { st with calls := st.calls ++ [GLCall.uniform1f loc value] })
    else (some c, st)

/-- Model of `rcompute_set_uniform_vec2`. -/
def rcompute_set_uniform_vec2 (env : Env) (c : Option rcompute)
    (name : Option (List Char)) (x y : GLfloat) (st : RCState) :
    Option rcompute × RCState :=
  match c, name with
  | none, _ => (none, st)
  | some c, none => (some c, st)
  | some c, some nm =>
    let (c, st) :=
      if c.last_program ≠ c.program then
        ({ c with last_program := c.program }, glUseProgram c.program st)
      else (c, st)
    let loc := env.uniformLoc c.program nm
    if loc ≠ -1 then
      (some c, { st with calls := st.calls ++ [GLCall.uniform2f loc x y] })
    else (some c, st)

/-- Model of `rcompute_set_uniform_vec3`. -/
def rcompute_set_uniform_vec3 (env : Env) (c : Option rcompute)
    (name : Option (List Char)) (x y z : GLfloat) (st : RCState) :
    Option rcompute × RCState :=
  match c, name with
  | none, _ => (none, st)
  | some c, none => (some c, st)
  | some c, some nm =>
    let (c, st) :=
      if c.last_program ≠ c.program then
        ({ c with last_program := c.program }, glUseProgram c.program st)
      else (c, st)
    let loc := env.uniformLoc c.program nm
    if loc ≠ -1 then
      (some c, { st with calls := st.calls ++ [GLCall.uniform3f loc x y z] })
    else (some c, st)

/-- Model of `rcompute_set_uniform_vec4`. -/
def rcompute_set_uniform_vec4 (env : Env) (c : Option rcompute)
    (name : Option (List Char)) (x y z w : GLfloat) (st : RCState) :
    Option rcompute × RCState :=
  match c, name with
  | none, _ => (none, st)
  | some c, none => (some c, st)
  | some c, some nm =>
    let (c, st) :=
      if c.last_program ≠ c.program then
        ({ c with last_program := c.program }, glUseProgram c.program st)
      else (c, st)
    let loc := env.uniformLoc c.program nm
    if loc ≠ -1 then
      (some c, { st with calls := st.calls ++ [GLCall.uniform4f loc x y z w] })
    else (some c, st)

/-- Model of `rcompute_set_uniform_mat4`: additionally a NULL matrix
pointer is a silent no-op. -/
def rcompute_set_uniform_mat4 (env : Env) (c : Option rcompute)
    (name : Option (List Char)) (matrix : Option (List GLfloat))
    (st : RCState) : Option rcompute × RCState :=
  match c, name, matrix with
  | none, _, _ => (none, st)
  | some c, none, _ => (some c, st)
  | some c, some _, none => (some c, st)
  | some c, some nm, some m =>
    let (c, st) :=
      if c.last_program ≠ c.program then
        ({ c with last_program := c.program }, glUseProgram c.program st)
      else (c, st)
    let loc := env.uniformLoc c.program nm
    if loc ≠ -1 then
      (some c, { st with calls := st.calls ++ [GLCall.uniformMatrix4fv loc m] })
    else (some c, st)

/-- Model of `rcompute_buffer_ex`: rejects non-positive sizes with an
error, otherwise maps the usage flag (default: dynamic), generates a
buffer name, fills its data store, and unbinds. -/
def rcompute_buffer_ex (size : Int) (data : Option (List Nat)) (usage : Nat)
    (st : RCState) : Nat × RCState :=
  if size ≤ 0 then
    (0, rcompute__err st (String.toList "Buffer size must be positive"))
  else
    let gl_usage :=
      if usage = RCOMPUTE_STATIC then GL_STATIC_DRAW
      else if usage = RCOMPUTE_STREAM then GL_STREAM_COPY
      else GL_DYNAMIC_COPY
    let (buf, st) := glGenBuffers st
    let st := glBindBuffer buf st
    let st := glBufferData size data gl_usage st
    let st := glBindBuffer 0 st
    (buf, st)

/-- Model of `rcompute_buffer`. -/
def rcompute_buffer (size : Int) (data : Option (List Nat)) (st : RCState) :
    Nat × RCState :=
  rcompute_buffer_ex size data RCOMPUTE_DYNAMIC st

/-- Model of `rcompute_buffer_zero`. -/
def rcompute_buffer_zero (size : Int) (st : RCState) : Nat × RCState :=
  rcompute_buffer_ex size none RCOMPUTE_DYNAMIC st

/-- Model of `rcompute_buffer_size`: handle 0 is rejected with an error;
otherwise the size is queried freshly from the device data store (0 for a
name with no store). -/
def rcompute_buffer_size (buf : Nat) (st : RCState) : Int × RCState :=
  if buf = 0 then
    (0, rcompute__err st (String.toList "Invalid buffer handle"))
  else
    let st := glBindBuffer buf st
    let size : Int := match List.lookup buf st.buffers with
      | some d => (d.length : Int)
      | none => 0
    let st := glBindBuffer 0 st
    (size, st)

/-- Model of `rcompute_buffer_write`: parameter guard, then a bounds
check against the freshly queried buffer size; only inside bounds does it
bind and issue `glBufferSubData`. -/
def rcompute_buffer_write (buf : Nat) (offset size : Int)
    (data : Option (List Nat)) (st : RCState) : RCState :=
  if buf = 0 ∨ data = none ∨ size ≤ 0 then
    rcompute__err st (String.toList "Invalid buffer write parameters")
  else
    let (buf_size, st) := rcompute_buffer_size buf st
    if offset + size > buf_size then
      rcompute__err st (String.toList "Buffer write exceeds buffer bounds")
    else
      let st := glBindBuffer buf st
      let st := glBufferSubData offset size (data.getD []) st
      glBindBuffer 0 st

/-- Model of `rcompute_buffer_bind`. -/
def rcompute_buffer_bind (buf : Nat) (binding : Nat) (st : RCState) : RCState :=
  if buf = 0 then rcompute__err st (String.toList "Invalid buffer handle")
  else { st with calls := st.calls ++ [GLCall.bindBufferBase binding buf] }

/-- Model of `rcompute_buffer_destroy`: only a nonzero handle reaches
`glDeleteBuffers`. -/
def rcompute_buffer_destroy (buf : Nat) (st : RCState) : RCState :=
  if buf ≠ 0 then glDeleteBuffers buf st else st

/-- Model of `rcompute_read`: parameter guard (the `out` pointer is
assumed non-NULL), then map, copy `size` bytes out, unmap, unbind.
Mapping a name with no data store fails with an error. -/
def rcompute_read (buf : Nat) (size : Int) (st : RCState) :
    Option (List Nat) × RCState :=
  if buf = 0 ∨ size ≤ 0 then
    (none, rcompute__err st (String.toList "Invalid buffer read parameters"))
  else
    let st := glBindBuffer buf st
    match List.lookup buf st.buffers with
    | none =>
      (none, glBindBuffer 0 (rcompute__err st (String.toList "Failed to map buffer")))
    | some d => (some (d.take size.toNat), glBindBuffer 0 st)

/-- The fixed format table shared by the texture constructors: the host
element type and base channel layout selected for each supported internal
format (default: unsigned byte with the format itself as layout). -/
def rcompute__tex_type_base (format : Nat) : Nat × Nat :=
  if format = GL_R32F ∨ format = GL_RG32F ∨ format = GL_RGBA32F then
    (GL_FLOAT,
     if format = GL_R32F then GL_RED
     else if format = GL_RG32F then GL_RG else GL_RGBA)
  else if format = GL_R32I ∨ format = GL_RG32I ∨ format = GL_RGBA32I then
    (GL_INT,
     if format = GL_R32I then GL_RED_INTEGER
     else if format = GL_RG32I then GL_RG_INTEGER else GL_RGBA_INTEGER)
  else if format = GL_R32UI ∨ format = GL_RG32UI ∨ format = GL_RGBA32UI then
    (GL_UNSIGNED_INT,
     if format = GL_R32UI then GL_RED_INTEGER
     else if format = GL_RG32UI then GL_RG_INTEGER else GL_RGBA_INTEGER)
  else (GL_UNSIGNED_BYTE, format)

/-- Model of `rcompute_texture_2d`: dimension guard with an error,
otherwise generate a texture and upload the image with the mapped
type/base format (filtering and wrap parameter calls are not observable
in this model). -/
def rcompute_texture_2d (width height : Int) (format : Nat)
    (st : RCState) : Nat × RCState :=
  if width ≤ 0 ∨ height ≤ 0 then
    (0, rcompute__err st (String.toList "Invalid texture dimensions"))
  else
    let (tex, st) := glGenTextures st
    let tb := rcompute__tex_type_base format
    (tex, { st with calls := st.calls ++
      [GLCall.texImage2D tex width height format tb.2 tb.1] })

/-- Model of `rcompute_texture_3d` (same structure with a depth
dimension). -/
def rcompute_texture_3d (width height depth : Int) (format : Nat)
    (st : RCState) : Nat × RCState :=
  if width ≤ 0 ∨ height ≤ 0 ∨ depth ≤ 0 then
    (0, rcompute__err st (String.toList "Invalid texture dimensions"))
  else
    let (tex, st) := glGenTextures st
    let tb := rcompute__tex_type_base format
    (tex, { st with calls := st.calls ++
      [GLCall.texImage3D tex width height depth format tb.2 tb.1] })

/-- Model of `rcompute_texture_destroy`. -/
def rcompute_texture_destroy (tex : Nat) (st : RCState) : RCState :=
  if tex ≠ 0 then
    { st with textures := st.textures.filter (fun t => t != tex),
              calls := st.calls ++ [GLCall.deleteTextures tex] }
  else st

/-- Model of `rcompute_run`: NULL context or zero program fails with an
error and issues nothing; otherwise it binds the program (without
consulting the `last_program` cache), dispatches, and issues a memory
barrier with GL_SHADER_STORAGE_BARRIER_BIT. -/
def rcompute_run (c : Option rcompute) (nx ny nz : Int) (st : RCState) :
    RCState :=
  match c with
  | none => rcompute__err st (String.toList "Invalid compute context or program")
  | some c =>
    if c.program = 0 then
      rcompute__err st (String.toList "Invalid compute context or program")
    else
      glMemoryBarrier GL_SHADER_STORAGE_BARRIER_BIT
        (glDispatchCompute nx ny nz (glUseProgram c.program st))

/-- Model of `rcompute_dispatch_1d`. -/
def rcompute_dispatch_1d (c : Option rcompute) (nx : Int) (st : RCState) :
    RCState :=
  rcompute_run c nx 1 1 st

/-- Model of `rcompute_dispatch_2d`. -/
def rcompute_dispatch_2d (c : Option rcompute) (nx ny : Int) (st : RCState) :
    RCState :=
  rcompute_run c nx ny 1 st

/-- Model of `rcompute_destroy`: a NULL context is a no-op; otherwise the
program handle (if nonzero) and the window handle (if non-NULL) are
handed to the device delete calls.  The context's fields are not reset,
mirroring the source. -/
def rcompute_destroy (c : Option rcompute) (st : RCState) : RCState :=
  match c with
  | none => st
  | some c =>
    let st := if c.program ≠ 0 then glDeleteProgram c.program st else st
    if c.window ≠ 0 then glfwDestroyWindow c.window st else st

/-- Model of `rcompute_barrier`. -/
def rcompute_barrier (barriers : Nat) (st : RCState) : RCState :=
  glMemoryBarrier barriers st

/-- Model of `rcompute_barrier_all`. -/
def rcompute_barrier_all (st : RCState) : RCState :=
  glMemoryBarrier GL_ALL_BARRIER_BITS st

/-- Model of `rcompute_timer_begin`: create the query object on first
use, begin the GL_TIME_ELAPSED query, clear the availability flag. -/
def rcompute_timer_begin (st : RCState) : RCState :=
  let st :=
    if st.queryId = 0 then
      { st with queryId := st.nextQuery,
                queries := st.nextQuery :: st.queries,
                nextQuery := st.nextQuery + 1,
                calls := st.calls ++ [GLCall.genQueries st.nextQuery] }
    else st
  { st with calls := st.calls ++ [GLCall.beginQuery st.queryId],
            queryAvailable := false }

/-- Model of `rcompute_timer_end`: the guard only checks whether the
query object was ever created; past it, the query is ended, the elapsed
nanoseconds are read from the device, and milliseconds are returned.  The
double result is modelled as an exact rational. -/
def rcompute_timer_end (env : Env) (st : RCState) : Rat × RCState :=
  if st.queryId = 0 then
    (0, rcompute__err st (String.toList "Timer not started"))
  else
    let st := { st with calls := st.calls ++ [GLCall.endQuery],
                        queryAvailable := true }
    ((env.elapsed st.queryId : Rat) / 1000000, st)

/-- Classifier for `glUseProgram` events in the trace. -/
def isUseProgram : GLCall → Bool :=
  fun call => match call with
  | GLCall.useProgram _ => true
  | _ => false

/-- Classifier for `glDeleteProgram` events in the trace. -/
def isDeleteProgram : GLCall → Bool :=
  fun call => match call with
  | GLCall.deleteProgram _ => true
  | _ => false

/-- Classifier for `glDeleteShader` events in the trace. -/
def isDeleteShader : GLCall → Bool :=
  fun call => match call with
  | GLCall.deleteShader _ => true
  | _ => false

/-- Classifier for `glfwDestroyWindow` events in the trace. -/
def isDestroyWindow : GLCall → Bool :=
  fun call => match call with
  | GLCall.destroyWindow _ => true
  | _ => false

/-!  Helper lemmas about the list machinery of the model. -/

theorem lookup_updateKey_of_some {k : Nat} {v x : List Nat}
    {bs : List (Nat × List Nat)} (h : List.lookup k bs = some x) :
    List.lookup k (updateKey k v bs) = some v := by
  induction bs with
  | nil => simp [List.lookup] at h
  | cons hd tl ih =>
    by_cases hk : hd.1 = k
    · simp only [updateKey, List.map_cons, if_pos hk]
      simp [List.lookup]
    · simp only [updateKey, List.map_cons, if_neg hk]
      have hne : (k == hd.1) = false := by simp [Ne.symm hk]
      simp only [List.lookup, hne] at h
      simp only [List.lookup, hne]
      simpa [updateKey] using ih h

theorem lookup_eraseKey_self (k : Nat) (bs : List (Nat × List Nat)) :
    List.lookup k (eraseKey k bs) = none := by
  induction bs with
  | nil => rfl
  | cons hd tl ih =>
    by_cases hk : hd.1 = k
    · simpa [eraseKey, hk] using ih
    · simp only [eraseKey, List.filter] at ih ⊢
      have : (hd.1 != k) = true := by simp [hk]
      simp only [this]
      have hne : (k == hd.1) = false := by simp [Ne.symm hk]
      simp [List.lookup, hne, ih]

theorem filter_idem {α : Type} (p : α → Bool) (l : List α) :
    (l.filter p).filter p = l.filter p := by
  induction l with
  | nil => rfl
  | cons hd tl ih =>
    by_cases h : p hd
    · simp [List.filter, h, ih]
    · simp only [List.filter] at ih ⊢
      simp [h, ih]

/-- C1: for every live buffer `buf` with contents `cur` and every write
request with valid parameters (nonzero handle, non-NULL data, positive
size), if `offset + size` exceeds the freshly queried allocated size then
`rcompute_buffer_write` records the bounds error, issues no
`glBufferSubData`, leaves the contents byte-for-byte unchanged, and a
subsequent `rcompute_read` returns the pre-write contents; if the range
lies within the allocation the device write is issued and the contents
are updated accordingly. -/
theorem c1_buffer_write_bounds (st : RCState) (buf : Nat) (offset size : Int)
    (d cur : List Nat)
    (halive : List.lookup buf st.buffers = some cur)
    (hbuf : buf ≠ 0) (hsize : 0 < size) (hcur : cur ≠ []) :
    ((cur.length : Int) < offset + size →
      (rcompute_buffer_write buf offset size (some d) st).lastError =
        String.toList "Buffer write exceeds buffer bounds" ∧
      (rcompute_buffer_write buf offset size (some d) st).buffers = st.buffers ∧
      (rcompute_buffer_write buf offset size (some d) st).calls =
        st.calls ++ [GLCall.bindBuffer buf, GLCall.bindBuffer 0] ∧
      (rcompute_read buf (cur.length : Int)
        (rcompute_buffer_write buf offset size (some d) st)).1 = some cur) ∧
    (0 ≤ offset → offset + size ≤ (cur.length : Int) →
      List.lookup buf (rcompute_buffer_write buf offset size (some d) st).buffers =
        some (cur.take offset.toNat ++ d.take size.toNat ++
          cur.drop (offset.toNat + size.toNat)) ∧
      GLCall.bufferSubData buf offset size ∈
        (rcompute_buffer_write buf offset size (some d) st).calls) := by
  have hguard : ¬ (buf = 0 ∨ (some d : Option (List Nat)) = none ∨ size ≤ 0) := by
    push_neg
    exact ⟨hbuf, by simp, by omega⟩
  constructor
  · intro hoob
    have hw : rcompute_buffer_write buf offset size (some d) st =
        rcompute__err
          { st with
              boundBuffer := 0,
              calls := st.calls ++ [GLCall.bindBuffer buf, GLCall.bindBuffer 0] }
          (String.toList "Buffer write exceeds buffer bounds") := by
      simp only [rcompute_buffer_write, if_neg hguard, rcompute_buffer_size,
        if_neg hbuf, glBindBuffer, halive]
      rw [if_pos (by omega)]
      simp [List.append_assoc]
    rw [hw]
    refine ⟨by simp [rcompute__err], by simp [rcompute__err], by simp [rcompute__err], ?_⟩
    have hlen : ¬ (buf = 0 ∨ (cur.length : Int) ≤ 0) := by
      push_neg
      refine ⟨hbuf, ?_⟩
      have : 0 < cur.length := List.length_pos.mpr hcur
      omega
    simp only [rcompute_read, if_neg hlen, glBindBuffer, rcompute__err, halive]
    simp [Int.toNat_natCast]
  · intro hle1 hle2
    have hw : rcompute_buffer_write buf offset size (some d) st =
        glBindBuffer 0 (glBufferSubData offset size d
          (glBindBuffer buf
            { st with
                boundBuffer := 0,
                calls := st.calls ++ [GLCall.bindBuffer buf, GLCall.bindBuffer 0] })) := by
      simp only [rcompute_buffer_write, if_neg hguard, rcompute_buffer_size,
        if_neg hbuf, glBindBuffer, halive]
      rw [if_neg (by omega)]
      simp [glBindBuffer, glBufferSubData, List.append_assoc]
    rw [hw]
    have hvalid : ¬ (offset < 0 ∨ size < 0 ∨ (cur.length : Int) < offset + size) := by
      omega
    simp only [glBufferSubData, glBindBuffer, halive, if_neg hvalid]
    refine ⟨?_, ?_⟩
    · exact lookup_updateKey_of_some halive
    · simp

/-- Concrete process state with one live 3-byte buffer, used to
instantiate the bounds theorem. -/
def stC1 : RCState := { initState with buffers := [(1, [10, 20, 30])] }

/-- Witness for C1: writing 2 bytes at offset 2 into the 3-byte buffer 1
is rejected with the bounds error and a read still returns the original
bytes. -/
theorem c1_buffer_write_bounds_witness :
    (rcompute_buffer_write 1 2 2 (some [7, 7]) stC1).lastError =
      String.toList "Buffer write exceeds buffer bounds" ∧
    (rcompute_read 1 (([10, 20, 30] : List Nat).length : Int)
      (rcompute_buffer_write 1 2 2 (some [7, 7]) stC1)).1 = some [10, 20, 30] := by
  have h := (c1_buffer_write_bounds stC1 1 2 2 [7, 7] [10, 20, 30]
    (by decide) (by decide) (by decide) (by decide)).1 (by decide)
  exact ⟨h.1, h.2.2.2⟩

/-- Count of `glDeleteProgram` events is unchanged by `rcompute_compile`:
it never deletes a program on any path. -/
theorem compile_deleteProgram_count (env : Env) (src : Option (List Char))
    (st : RCState) :
    ((rcompute_compile env src st).2).calls.countP isDeleteProgram =
      st.calls.countP isDeleteProgram := by
  match src with
  | none => simp [rcompute_compile, rcompute__err]
  | some s =>
    by_cases hc : env.compileOk s = false
    · simp [rcompute_compile, hc, glCreateShader, rcompute__err,
        List.countP_append, isDeleteProgram]
    · by_cases hl : env.linkOk s = false <;>
        simp [rcompute_compile, hc, hl, glCreateShader, glCreateProgram,
          glDeleteShader, rcompute__err, List.countP_append, isDeleteProgram,
          List.countP_cons]

/-- Count of `glDeleteProgram` events is unchanged by
`rcompute_compile_file`. -/
theorem compile_file_deleteProgram_count (env : Env)
    (filepath : Option (List Char)) (st : RCState) :
    ((rcompute_compile_file env filepath st).2).calls.countP isDeleteProgram =
      st.calls.countP isDeleteProgram := by
  match filepath with
  | none => simp [rcompute_compile_file, rcompute__err]
  | some p =>
    match hfs : env.fs p with
    | none => simp [rcompute_compile_file, hfs, rcompute__err]
    | some content =>
      by_cases hr : env.shortRead p
      · simp [rcompute_compile_file, hfs, hr, rcompute__err]
      · simp only [rcompute_compile_file, hfs, if_neg hr]
        exact compile_deleteProgram_count env (some content) st

/-- C2: hot-reload is transactional.  On every failure the sentinel 0 is
returned, the context (active program and bind cache) is exactly as
before, and no `glDeleteProgram` is issued; only on success is the old
program deleted (when nonzero) and the newly compiled program installed,
with the bind cache reset. -/
theorem c2_reload_transactional (env : Env) (c : rcompute) (p : List Char)
    (st : RCState) :
    ((rcompute_reload_shader env (some c) (some p) st).1 = 0 →
      (rcompute_reload_shader env (some c) (some p) st).2.1 = some c ∧
      (rcompute_reload_shader env (some c) (some p) st).2.2.calls.countP
          isDeleteProgram = st.calls.countP isDeleteProgram) ∧
    ((rcompute_reload_shader env (some c) (some p) st).1 ≠ 0 →
      (rcompute_reload_shader env (some c) (some p) st).2.1 =
        some { c with program := (rcompute_compile_file env (some p) st).1,
                      last_program := 0 } ∧
      (c.program ≠ 0 →
        GLCall.deleteProgram c.program ∈
          (rcompute_reload_shader env (some c) (some p) st).2.2.calls)) := by
  rcases hcf : rcompute_compile_file env (some p) st with ⟨np, st1⟩
  by_cases hnp : np = 0
  · constructor
    · intro _
      refine ⟨?_, ?_⟩
      · simp [rcompute_reload_shader, hcf, hnp]
      · have h1 : st1.calls.countP isDeleteProgram =
            st.calls.countP isDeleteProgram := by
          have := compile_file_deleteProgram_count env (some p) st
          rw [hcf] at this
          exact this
        simp [rcompute_reload_shader, hcf, hnp, rcompute__err, h1]
    · intro hr
      exfalso
      apply hr
      simp [rcompute_reload_shader, hcf, hnp]
  · constructor
    · intro hr
      exfalso
      have : (rcompute_reload_shader env (some c) (some p) st).1 = 1 := by
        by_cases hop : c.program ≠ 0 <;>
          simp [rcompute_reload_shader, hcf, hnp, hop]
      omega
    · intro _
      constructor
      · by_cases hop : c.program ≠ 0 <;>
          simp [rcompute_reload_shader, hcf, hnp, hop]
      · intro hop
        simp [rcompute_reload_shader, hcf, hnp, hop, glDeleteProgram]

/-- Environment in which everything succeeds and the file system returns
a fixed shader source for every path. -/
def envOk : Env :=
  { glfwInitOk := true, createWindowOk := true, glewOk := true,
    compileOk := fun _ => true, linkOk := fun _ => true,
    shaderLog := fun _ => [], programLog := fun _ => [],
    fs := fun _ => some (String.toList "#version 430\n"),
    shortRead := fun _ => false, uniformLoc := fun _ _ => -1,
    elapsed := fun _ => 0 }

/-- Witness for C2: a successful reload over a context whose active
program is 7 installs the freshly linked program 1, resets the bind
cache, and deletes program 7. -/
theorem c2_reload_transactional_witness :
    (rcompute_reload_shader envOk
      (some { window := 1, program := 7, last_program := 7 })
      (some (String.toList "s")) initState).2.1 =
      some { window := 1, program := 1, last_program := 0 } ∧
    GLCall.deleteProgram 7 ∈
      (rcompute_reload_shader envOk
        (some { window := 1, program := 7, last_program := 7 })
        (some (String.toList "s")) initState).2.2.calls := by
  have h := (c2_reload_transactional envOk
    { window := 1, program := 7, last_program := 7 }
    (String.toList "s") initState).2 (by decide)
  exact ⟨h.1, h.2 (by decide)⟩

/-- Environment in which every shader fails to compile (with an empty
device log); other oracles are inert. -/
def envFailCompile : Env :=
  { glfwInitOk := true, createWindowOk := true, glewOk := true,
    compileOk := fun _ => false, linkOk := fun _ => true,
    shaderLog := fun _ => [], programLog := fun _ => [],
    fs := fun _ => none, shortRead := fun _ => false,
    uniformLoc := fun _ _ => -1, elapsed := fun _ => 0 }

/-- Counterexample for C3: when compilation fails, `rcompute_compile`
returns 0 with the freshly created shader object still alive and no
`glDeleteShader` ever issued — the intermediate shader object outlives
the call on the compile-failure path. -/
theorem c3_compile_leak_counterexample :
    (rcompute_compile envFailCompile (some [' ']) initState).1 = 0 ∧
    (rcompute_compile envFailCompile (some [' ']) initState).2.shaders = [1] ∧
    (rcompute_compile envFailCompile (some [' ']) initState).2.calls.countP
      isDeleteShader = 0 := by
  decide

/-- C3 amended: `rcompute_compile` releases the intermediate pre-link
shader object on the success and link-failure paths (it is deleted before
the link status is checked, leaving the shader table as it was); on the
compile-failure path, however, the function returns without deleting it,
so the shader object leaks there. -/
theorem c3_shader_release_amended (env : Env) (s : List Char) (st : RCState) :
    (env.compileOk s = true →
      GLCall.deleteShader st.nextShaderName ∈
        (rcompute_compile env (some s) st).2.calls ∧
      (rcompute_compile env (some s) st).2.shaders = st.shaders) ∧
    (env.compileOk s = false →
      st.nextShaderName ∈ (rcompute_compile env (some s) st).2.shaders ∧
      (rcompute_compile env (some s) st).2.calls.countP isDeleteShader =
        st.calls.countP isDeleteShader) := by
  constructor
  · intro hc
    have hc' : ¬ env.compileOk s = false := by simp [hc]
    by_cases hl : env.linkOk s = false
    · constructor
      · simp [rcompute_compile, hc', hl, glCreateShader, glCreateProgram,
          glDeleteShader, rcompute__err]
      · simp [rcompute_compile, hc', hl, glCreateShader, glCreateProgram,
          glDeleteShader, rcompute__err]
    · constructor
      · simp [rcompute_compile, hc', hl, glCreateShader, glCreateProgram,
          glDeleteShader]
      · simp [rcompute_compile, hc', hl, glCreateShader, glCreateProgram,
          glDeleteShader]
  · intro hc
    constructor
    · simp [rcompute_compile, hc, glCreateShader, rcompute__err]
    · simp [rcompute_compile, hc, glCreateShader, rcompute__err,
        List.countP_append, isDeleteShader, List.countP_cons]

/-- Witness for the amended C3: with a succeeding compiler the shader
object 1 created by the call is deleted before return and the shader
table is left empty. -/
theorem c3_shader_release_amended_witness :
    GLCall.deleteShader 1 ∈
      (rcompute_compile envOk (some [' ']) initState).2.calls ∧
    (rcompute_compile envOk (some [' ']) initState).2.shaders = [] := by
  have h := (c3_shader_release_amended envOk [' '] initState).1 (by decide)
  exact ⟨h.1, h.2⟩

/-- Environment in which every fallible device step fails. -/
def envAllFail : Env :=
  { glfwInitOk := false, createWindowOk := false, glewOk := false,
    compileOk := fun _ => false, linkOk := fun _ => false,
    shaderLog := fun _ => [], programLog := fun _ => [],
    fs := fun _ => none, shortRead := fun _ => true,
    uniformLoc := fun _ _ => -1, elapsed := fun _ => 0 }

/-- Counterexample for C4: `rcompute_init` (listed by the claim) returns
its sentinel 0 — here because GLFW initialisation fails — while recording
nothing: `rcompute_get_last_error` still returns NULL afterwards. -/
theorem c4_init_silent_counterexample :
    (rcompute_init envAllFail
      (some { window := 0, program := 0, last_program := 0 }) 4 3
      initState).1 = 0 ∧
    rcompute_get_last_error
      (rcompute_init envAllFail
        (some { window := 0, program := 0, last_program := 0 }) 4 3
        initState).2.2 = none := by
  decide

/-- The message `rcompute_compile` leaves in the error slot on each of
its failure paths (NULL source, compile failure with the device shader
log, link failure with the device program log). -/
def compileFailMsg (env : Env) (src : Option (List Char)) : List Char :=
  match src with
  | none => (String.toList "Shader source is NULL").take 511
  | some s =>
    if env.compileOk s = false then (env.shaderLog s).take 511
    else (env.programLog s).take 511

/-- The message `rcompute_compile_file` leaves in the error slot on each
of its failure paths. -/
def compileFileFailMsg (env : Env) (filepath : Option (List Char)) : List Char :=
  match filepath with
  | none => (String.toList "Filepath is NULL").take 511
  | some p =>
    match env.fs p with
    | none => (String.toList "Failed to open shader file: " ++ p).take 511
    | some content =>
      if env.shortRead p then
        (String.toList "Failed to read complete shader file").take 511
      else compileFailMsg env (some content)

/-- C4 amended: every listed fallible operation except `rcompute_init`
records a message in the process-wide last-error slot on each sentinel
return — a fixed non-empty library message for parameter failures, or the
device-reported diagnostic log for compile and link failures.
`rcompute_init`, by contrast, never writes the error slot at all: all of
its failure paths are silent. -/
theorem c4_error_recording_amended (env : Env) (st : RCState) :
    (∀ c major minor,
      ((rcompute_init env c major minor st).2.2).lastError = st.lastError) ∧
    (∀ src, st.nextProgName ≠ 0 → (rcompute_compile env src st).1 = 0 →
      ((rcompute_compile env src st).2).lastError = compileFailMsg env src) ∧
    (∀ filepath, st.nextProgName ≠ 0 →
      (rcompute_compile_file env filepath st).1 = 0 →
      ((rcompute_compile_file env filepath st).2).lastError =
        compileFileFailMsg env filepath) ∧
    (∀ src defines, st.nextProgName ≠ 0 →
      (rcompute_compile_with_defines env src defines st).1 = 0 →
      ((rcompute_compile_with_defines env src defines st).2).lastError =
        (match src with
         | none => (String.toList "Shader source is NULL").take 511
         | some s => compileFailMsg env (some (rcompute_preprocess s defines)))) ∧
    (∀ size data usage, st.nextBufName ≠ 0 →
      (rcompute_buffer_ex size data usage st).1 = 0 →
      ((rcompute_buffer_ex size data usage st).2).lastError =
        String.toList "Buffer size must be positive") ∧
    (∀ width height format, st.nextTexName ≠ 0 →
      (rcompute_texture_2d width height format st).1 = 0 →
      ((rcompute_texture_2d width height format st).2).lastError =
        String.toList "Invalid texture dimensions") ∧
    (∀ width height depth format, st.nextTexName ≠ 0 →
      (rcompute_texture_3d width height depth format st).1 = 0 →
      ((rcompute_texture_3d width height depth format st).2).lastError =
        String.toList "Invalid texture dimensions") := by
  refine ⟨?_, ?_, ?_, ?_, ?_, ?_, ?_⟩
  · intro c major minor
    match c with
    | none => rfl
    | some c0 =>
      by_cases hgi : st.glfwInitialized <;> by_cases hgo : env.glfwInitOk <;>
        by_cases h2 : env.createWindowOk <;> by_cases h3 : env.glewOk <;>
          simp [rcompute_init, hgi, hgo, h2, h3, glfwCreateWindow, glfwTerminate]
  · intro src hnp hfail
    match src with
    | none => simp [rcompute_compile, compileFailMsg, rcompute__err]
    | some s =>
      by_cases hc : env.compileOk s = false
      · simp [rcompute_compile, compileFailMsg, hc, glCreateShader, rcompute__err]
      · by_cases hl : env.linkOk s = false
        · simp [rcompute_compile, compileFailMsg, hc, hl, glCreateShader,
            glCreateProgram, glDeleteShader, rcompute__err]
        · exfalso
          simp [rcompute_compile, hc, hl, glCreateShader, glCreateProgram,
            glDeleteShader] at hfail
          exact hnp hfail
  · intro filepath hnp hfail
    match filepath with
    | none => simp [rcompute_compile_file, compileFileFailMsg, rcompute__err]
    | some p =>
      match hfs : env.fs p with
      | none =>
        simp [rcompute_compile_file, compileFileFailMsg, hfs, rcompute__err]
      | some content =>
        by_cases hr : env.shortRead p
        · simp [rcompute_compile_file, compileFileFailMsg, hfs, hr, rcompute__err]
        · simp only [rcompute_compile_file, hfs, if_neg hr] at hfail ⊢
          simp only [compileFileFailMsg, hfs, if_neg hr]
          by_cases hc : env.compileOk content = false
          · simp [rcompute_compile, compileFailMsg, hc, glCreateShader,
              rcompute__err]
          · by_cases hl : env.linkOk content = false
            · simp [rcompute_compile, compileFailMsg, hc, hl, glCreateShader,
                glCreateProgram, glDeleteShader, rcompute__err]
            · exfalso
              simp [rcompute_compile, hc, hl, glCreateShader, glCreateProgram,
                glDeleteShader] at hfail
              exact hnp hfail
  · intro src defines hnp hfail
    match src with
    | none => simp [rcompute_compile_with_defines, rcompute__err]
    | some s =>
      simp only [rcompute_compile_with_defines] at hfail ⊢
      by_cases hc : env.compileOk (rcompute_preprocess s defines) = false
      · simp [rcompute_compile, compileFailMsg, hc, glCreateShader, rcompute__err]
      · by_cases hl : env.linkOk (rcompute_preprocess s defines) = false
        · simp [rcompute_compile, compileFailMsg, hc, hl, glCreateShader,
            glCreateProgram, glDeleteShader, rcompute__err]
        · exfalso
          simp [rcompute_compile, hc, hl, glCreateShader, glCreateProgram,
            glDeleteShader] at hfail
          exact hnp hfail
  · intro size data usage hnb hfail
    by_cases hs : size ≤ 0
    · simp [rcompute_buffer_ex, hs, rcompute__err]
    · exfalso
      simp [rcompute_buffer_ex, hs, glGenBuffers, glBindBuffer,
        glBufferData] at hfail
      exact hnb hfail
  · intro width height format hnt hfail
    by_cases hs : width ≤ 0 ∨ height ≤ 0
    · simp [rcompute_texture_2d, hs, rcompute__err]
    · exfalso
      simp [rcompute_texture_2d, hs, glGenTextures] at hfail
      exact hnt hfail
  · intro width height depth format hnt hfail
    by_cases hs : width ≤ 0 ∨ height ≤ 0 ∨ depth ≤ 0
    · simp [rcompute_texture_3d, hs, rcompute__err]
    · exfalso
      simp [rcompute_texture_3d, hs, glGenTextures] at hfail
      exact hnt hfail

/-- Witness for the amended C4: a buffer request of size 0 fails and the
non-empty library message is readable via the error slot. -/
theorem c4_error_recording_amended_witness :
    ((rcompute_buffer_ex 0 none RCOMPUTE_DYNAMIC initState).2).lastError =
      String.toList "Buffer size must be positive" ∧
    (rcompute_buffer_ex 0 none RCOMPUTE_DYNAMIC initState).1 = 0 := by
  have h := (c4_error_recording_amended envOk initState).2.2.2.2.1
    0 none RCOMPUTE_DYNAMIC (by decide) (by decide)
  exact ⟨h, by decide⟩

/-- Boolean prefix test unpacked to an append decomposition. -/
theorem isPrefixOf_toAppend (p l : List Char) :
    p.isPrefixOf l = true ↔ ∃ t, l = p ++ t := by
  induction p generalizing l with
  | nil => simp [List.isPrefixOf]
  | cons c p' ih =>
    match l with
    | [] =>
      simp [List.isPrefixOf]
    | x :: l' =>
      simp only [List.isPrefixOf, Bool.and_eq_true, beq_iff_eq, ih]
      constructor
      · rintro ⟨rfl, t, rfl⟩
        exact ⟨t, rfl⟩
      · rintro ⟨t, ht⟩
        have h1 : x = c := by
          have := congrArg (fun z => z.head?) ht
          simpa using this
        have h2 : l' = p' ++ t := by
          have := congrArg (fun z => z.tail) ht
          simpa using this
        exact ⟨h1.symm, t, h2⟩

/-- Soundness of `strstr`: a returned split really is a split whose
second component starts with the needle. -/
theorem strstr_sound (hay pat a b : List Char)
    (h : strstr hay pat = some (a, b)) :
    hay = a ++ b ∧ pat.isPrefixOf b = true := by
  induction hay generalizing a with
  | nil =>
    by_cases hp : pat.isPrefixOf ([] : List Char) = true
    · simp only [strstr, if_pos hp, Option.some.injEq, Prod.mk.injEq] at h
      obtain ⟨rfl, rfl⟩ := h
      exact ⟨rfl, hp⟩
    · simp [strstr, hp] at h
  | cons c rest ih =>
    by_cases hp : pat.isPrefixOf (c :: rest) = true
    · simp only [strstr, if_pos hp, Option.some.injEq, Prod.mk.injEq] at h
      obtain ⟨rfl, rfl⟩ := h
      exact ⟨rfl, hp⟩
    · simp only [strstr, if_neg hp] at h
      rcases hr : strstr rest pat with _ | ⟨a', b'⟩
      · rw [hr] at h
        simp at h
      · rw [hr] at h
        simp only [Option.map, Option.some.injEq, Prod.mk.injEq] at h
        obtain ⟨rfl, rfl⟩ := h
        obtain ⟨hsplit, hpre⟩ := ih a' hr
        exact ⟨by simp [hsplit], hpre⟩

/-- Completeness of `strstr` at the first occurrence: when the needle is
a prefix of `b` and no split strictly left of `a` carries the needle,
`strstr` returns exactly the split `(a, b)`. -/
theorem strstr_eq_of_first (a b pat : List Char)
    (hpre : pat.isPrefixOf b = true)
    (hmin : ∀ a' b', a ++ b = a' ++ b' → pat.isPrefixOf b' = true →
      a.length ≤ a'.length) :
    strstr (a ++ b) pat = some (a, b) := by
  induction a with
  | nil =>
    match b with
    | [] => simp [strstr, hpre]
    | x :: b' => simp [strstr, hpre]
  | cons c a' ih =>
    have hnp : ¬ pat.isPrefixOf (c :: (a' ++ b)) = true := by
      intro hc
      have := hmin [] (c :: (a' ++ b)) (by simp) hc
      simp at this
    have hmin' : ∀ a'' b'', a' ++ b = a'' ++ b'' →
        pat.isPrefixOf b'' = true → a'.length ≤ a''.length := by
      intro a'' b'' hsplit hp
      have := hmin (c :: a'') b'' (by simpa using congrArg (List.cons c) hsplit) hp
      simpa using this
    have hrec := ih hmin'
    show strstr (c :: (a' ++ b)) pat = some (c :: a', b)
    simp [strstr, hnp, hrec]

/-- No position inside `u` can start a one-character needle `c` when `c`
does not occur in `u`: any split of `u ++ c :: v` whose suffix starts
with `c` lies at or beyond `u`. -/
theorem first_single (c : Char) (u v : List Char) (hc : c ∉ u) :
    ∀ a' b', u ++ (c :: v) = a' ++ b' → [c].isPrefixOf b' = true →
      u.length ≤ a'.length := by
  intro a' b' hsplit hp
  by_contra hlt
  push_neg at hlt
  obtain ⟨t, rfl⟩ := (isPrefixOf_toAppend [c] b').mp hp
  have hlen : a'.length < u.length := hlt
  have hi1 : a'.length < (u ++ (c :: v)).length := by simp; omega
  have hi2 : a'.length < (a' ++ ([c] ++ t)).length := by simp
  have e1 : (u ++ (c :: v))[a'.length] = u[a'.length] :=
    List.getElem_append_left hlen
  have e2 : (u ++ (c :: v))[a'.length] = (a' ++ ([c] ++ t))[a'.length] :=
    List.getElem_of_eq hsplit hi1
  have e3 : (a' ++ ([c] ++ t))[a'.length] = c := by
    rw [List.getElem_append_right (Nat.le_refl _)]
    simp
  have hidx : u[a'.length] = c := by rw [← e1, e2, e3]
  exact hc (hidx ▸ List.getElem_mem hlen)

/-- The define lines emitted for a fully non-NULL list, written as an
explicit join of one `#define` line per entry. -/
theorem define_lines_map_some (l : List (List Char)) :
    rcompute__define_lines (l.map some) =
      (l.map (fun d => String.toList "#define " ++ d ++ ['\n'])).flatten := by
  induction l with
  | nil => rfl
  | cons d t ih => simp [rcompute__define_lines, List.foldr] at ih ⊢; simp [ih]

/-- C5: for every source and defines list, the preprocessed text that
`rcompute_compile_with_defines` builds equals the source through the
version line's terminating newline, then one `#define <entry>` line per
list entry in list order, then the remainder of the source
byte-identical; when the source has no `#version` line terminated by a
newline, the same define lines are instead prepended to the unmodified
source. -/
theorem c5_define_injection (defines : List (List Char)) :
    (∀ a m rest : List Char,
      (∀ a' b' : List Char,
        a ++ (String.toList "#version" ++ m ++ '\n' :: rest) = a' ++ b' →
        (String.toList "#version").isPrefixOf b' = true →
        a.length ≤ a'.length) →
      '\n' ∉ m →
      rcompute_preprocess
          (a ++ (String.toList "#version" ++ m ++ '\n' :: rest))
          (defines.map some) =
        a ++ (String.toList "#version" ++ m ++ '\n' ::
          ((defines.map (fun d => String.toList "#define " ++ d ++ ['\n'])).flatten
            ++ rest))) ∧
    (∀ src : List Char,
      (¬ ∃ a m r : List Char,
        src = a ++ (String.toList "#version" ++ m ++ '\n' :: r)) →
      rcompute_preprocess src (defines.map some) =
        (defines.map (fun d => String.toList "#define " ++ d ++ ['\n'])).flatten
          ++ src) := by
  constructor
  · intro a m rest hmin hm
    have hpre1 : (String.toList "#version").isPrefixOf
        (String.toList "#version" ++ m ++ '\n' :: rest) = true := by
      rw [isPrefixOf_toAppend]
      exact ⟨m ++ '\n' :: rest, by simp⟩
    have h1 : strstr (a ++ (String.toList "#version" ++ m ++ '\n' :: rest))
        (String.toList "#version") =
        some (a, String.toList "#version" ++ m ++ '\n' :: rest) :=
      strstr_eq_of_first a _ _ hpre1 hmin
    have hnotin : '\n' ∉ String.toList "#version" ++ m := by
      intro hmem
      rcases List.mem_append.mp hmem with h | h
      · exact absurd h (by decide)
      · exact hm h
    have hpre2 : (['\n'] : List Char).isPrefixOf ('\n' :: rest) = true := by
      rw [isPrefixOf_toAppend]
      exact ⟨rest, rfl⟩
    have h2 : strstr ((String.toList "#version" ++ m) ++ '\n' :: rest)
        ['\n'] = some (String.toList "#version" ++ m, '\n' :: rest) :=
      strstr_eq_of_first _ _ _ hpre2
        (first_single '\n' (String.toList "#version" ++ m) rest hnotin)
    have h2' : strstr (String.toList "#version" ++ m ++ '\n' :: rest)
        ['\n'] = some (String.toList "#version" ++ m, '\n' :: rest) := by
      simpa [List.append_assoc] using h2
    simp only [rcompute_preprocess, h1, h2']
    rw [define_lines_map_some]
    simp
  · intro src hno
    rcases h1 : strstr src (String.toList "#version") with _ | ⟨before, fromV⟩
    · simp only [rcompute_preprocess, h1, define_lines_map_some]
    · rcases h2 : strstr fromV ['\n'] with _ | ⟨vline, fromNl⟩
      · simp only [rcompute_preprocess, h1, h2, define_lines_map_some]
      · exfalso
        obtain ⟨hsrc, hvpre⟩ := strstr_sound _ _ _ _ h1
        obtain ⟨hfromV, hnlpre⟩ := strstr_sound _ _ _ _ h2
        obtain ⟨t1, ht1⟩ := (isPrefixOf_toAppend _ _).mp hvpre
        obtain ⟨t2, ht2⟩ := (isPrefixOf_toAppend _ _).mp hnlpre
        by_cases hlen : (String.toList "#version").length ≤ vline.length
        · apply hno
          refine ⟨before, vline.drop (String.toList "#version").length, t2, ?_⟩
          have hv : vline = String.toList "#version" ++
              vline.drop (String.toList "#version").length := by
            have htake : vline.take (String.toList "#version").length =
                String.toList "#version" := by
              have e1 : fromV.take (String.toList "#version").length =
                  String.toList "#version" := by
                rw [ht1]
                simp
              have e2 : fromV.take (String.toList "#version").length =
                  vline.take (String.toList "#version").length := by
                rw [hfromV, List.take_append_of_le_length hlen]
              rw [← e2, e1]
            conv_lhs => rw [← List.take_append_drop
              (String.toList "#version").length vline]
            rw [htake]
          rw [hsrc, hfromV, ht2]
          rw [hv]
          simp
        · push_neg at hlen
          have hchar : '\n' ∈ String.toList "#version" := by
            have hif : vline.length < fromV.length := by
              rw [ht1, List.length_append]
              omega
            have e1 : fromV[vline.length] = '\n' := by
              have hveq : fromV = vline ++ ('\n' :: t2) := by
                rw [hfromV, ht2]
                simp
              have hiv : vline.length < (vline ++ ('\n' :: t2)).length := by
                simp
              have := List.getElem_of_eq hveq hif
              rw [this, List.getElem_append_right (Nat.le_refl _)]
              simp
            have e2 : fromV[vline.length] =
                (String.toList "#version")[vline.length] := by
              have hi8 : vline.length <
                  (String.toList "#version" ++ t1).length := by
                rw [List.length_append]
                omega
              have := List.getElem_of_eq ht1 hif
              rw [this]
              exact List.getElem_append_left hlen
            rw [e1] at e2
            exact e2.symm ▸ List.getElem_mem hlen
          exact absurd hchar (by decide)

/-- Witness for C5: injecting defines A and B 2 after the version line of
a concrete source puts both lines, in order, right after the newline with
the remainder untouched. -/
theorem c5_define_injection_witness :
    rcompute_preprocess
        ([] ++ (String.toList "#version" ++ [' ', '4', '3', '0'] ++
          '\n' :: String.toList "void"))
        (([['A'], ['B', ' ', '2']] : List (List Char)).map some) =
      [] ++ (String.toList "#version" ++ [' ', '4', '3', '0'] ++
        '\n' :: ((([['A'], ['B', ' ', '2']] : List (List Char)).map
          (fun d => String.toList "#define " ++ d ++ ['\n'])).flatten ++
            String.toList "void")) := by
  exact (c5_define_injection [['A'], ['B', ' ', '2']]).1
    [] [' ', '4', '3', '0'] (String.toList "void")
    (fun _ _ _ _ => Nat.zero_le _) (by decide)

/-- Counterexample for C6: a context whose cached last-bound program
already equals the active program 5 still gets a `glUseProgram` from the
dispatch call — `rcompute_run` never consults the cache, contradicting
the claim that every dispatch call re-issues the bind only when the two
differ. -/
theorem c6_run_rebind_counterexample :
    ({ window := 1, program := 5, last_program := 5 } : rcompute).last_program =
      ({ window := 1, program := 5, last_program := 5 } : rcompute).program ∧
    GLCall.useProgram 5 ∈
      (rcompute_run (some { window := 1, program := 5, last_program := 5 })
        1 1 1 initState).calls := by
  decide

/-- C6 amended: every uniform-setting call compares the context's program
against the cached last-bound program, issues `glUseProgram` only when
they differ, and updates the cache when it binds; the cache is reset to 0
by a successful hot-reload.  The dispatch call `rcompute_run`, however,
does not participate: it issues `glUseProgram` unconditionally and leaves
the cache untouched. -/
theorem c6_bind_cache_amended (env : Env) (c : rcompute) (nm : List Char)
    (vi : Int) (vu : Nat) (vf fx fy fz fw : GLfloat) (mat : List GLfloat)
    (p : List Char) (nx ny nz : Int) (st : RCState) :
    ((c.last_program = c.program →
      (rcompute_set_uniform_int env (some c) (some nm) vi st).1 = some c ∧
      (rcompute_set_uniform_int env (some c) (some nm) vi st).2.calls.countP
        isUseProgram = st.calls.countP isUseProgram) ∧
     (c.last_program ≠ c.program →
      (rcompute_set_uniform_int env (some c) (some nm) vi st).1 =
        some { c with last_program := c.program } ∧
      (rcompute_set_uniform_int env (some c) (some nm) vi st).2.calls.countP
        isUseProgram = st.calls.countP isUseProgram + 1 ∧
      GLCall.useProgram c.program ∈
        (rcompute_set_uniform_int env (some c) (some nm) vi st).2.calls)) ∧
    ((c.last_program = c.program →
      (rcompute_set_uniform_uint env (some c) (some nm) vu st).1 = some c ∧
      (rcompute_set_uniform_uint env (some c) (some nm) vu st).2.calls.countP
        isUseProgram = st.calls.countP isUseProgram) ∧
     (c.last_program ≠ c.program →
      (rcompute_set_uniform_uint env (some c) (some nm) vu st).1 =
        some { c with last_program := c.program } ∧
      (rcompute_set_uniform_uint env (some c) (some nm) vu st).2.calls.countP
        isUseProgram = st.calls.countP isUseProgram + 1)) ∧
    ((c.last_program = c.program →
      (rcompute_set_uniform_float env (some c) (some nm) vf st).1 = some c ∧
      (rcompute_set_uniform_float env (some c) (some nm) vf st).2.calls.countP
        isUseProgram = st.calls.countP isUseProgram) ∧
     (c.last_program ≠ c.program →
      (rcompute_set_uniform_float env (some c) (some nm) vf st).1 =
        some { c with last_program := c.program } ∧
      (rcompute_set_uniform_float env (some c) (some nm) vf st).2.calls.countP
        isUseProgram = st.calls.countP isUseProgram + 1)) ∧
    ((c.last_program = c.program →
      (rcompute_set_uniform_vec2 env (some c) (some nm) fx fy st).1 = some c ∧
      (rcompute_set_uniform_vec2 env (some c) (some nm) fx fy st).2.calls.countP
        isUseProgram = st.calls.countP isUseProgram) ∧
     (c.last_program ≠ c.program →
      (rcompute_set_uniform_vec2 env (some c) (some nm) fx fy st).1 =
        some { c with last_program := c.program } ∧
      (rcompute_set_uniform_vec2 env (some c) (some nm) fx fy st).2.calls.countP
        isUseProgram = st.calls.countP isUseProgram + 1)) ∧
    ((c.last_program = c.program →
      (rcompute_set_uniform_vec3 env (some c) (some nm) fx fy fz st).1 = some c ∧
      (rcompute_set_uniform_vec3 env (some c) (some nm) fx fy fz st).2.calls.countP
        isUseProgram = st.calls.countP isUseProgram) ∧
     (c.last_program ≠ c.program →
      (rcompute_set_uniform_vec3 env (some c) (some nm) fx fy fz st).1 =
        some { c with last_program := c.program } ∧
      (rcompute_set_uniform_vec3 env (some c) (some nm) fx fy fz st).2.calls.countP
        isUseProgram = st.calls.countP isUseProgram + 1)) ∧
    ((c.last_program = c.program →
      (rcompute_set_uniform_vec4 env (some c) (some nm) fx fy fz fw st).1 = some c ∧
      (rcompute_set_uniform_vec4 env (some c) (some nm) fx fy fz fw st).2.calls.countP
        isUseProgram = st.calls.countP isUseProgram) ∧
     (c.last_program ≠ c.program →
      (rcompute_set_uniform_vec4 env (some c) (some nm) fx fy fz fw st).1 =
        some { c with last_program := c.program } ∧
      (rcompute_set_uniform_vec4 env (some c) (some nm) fx fy fz fw st).2.calls.countP
        isUseProgram = st.calls.countP isUseProgram + 1)) ∧
    ((c.last_program = c.program →
      (rcompute_set_uniform_mat4 env (some c) (some nm) (some mat) st).1 = some c ∧
      (rcompute_set_uniform_mat4 env (some c) (some nm) (some mat) st).2.calls.countP
        isUseProgram = st.calls.countP isUseProgram) ∧
     (c.last_program ≠ c.program →
      (rcompute_set_uniform_mat4 env (some c) (some nm) (some mat) st).1 =
        some { c with last_program := c.program } ∧
      (rcompute_set_uniform_mat4 env (some c) (some nm) (some mat) st).2.calls.countP
        isUseProgram = st.calls.countP isUseProgram + 1)) ∧
    (c.program ≠ 0 →
      (rcompute_run (some c) nx ny nz st).calls = st.calls ++
        [GLCall.useProgram c.program, GLCall.dispatchCompute nx ny nz,
         GLCall.memoryBarrier GL_SHADER_STORAGE_BARRIER_BIT]) ∧
    ((rcompute_reload_shader env (some c) (some p) st).1 ≠ 0 →
      ((rcompute_reload_shader env (some c) (some p) st).2.1.map
        (fun cx => cx.last_program)) = some 0) := by
  refine ⟨⟨?_, ?_⟩, ⟨?_, ?_⟩, ⟨?_, ?_⟩, ⟨?_, ?_⟩, ⟨?_, ?_⟩, ⟨?_, ?_⟩, ⟨?_, ?_⟩,
    ?_, ?_⟩ <;> intro h
  case _ =>
    by_cases hl : env.uniformLoc c.program nm ≠ -1 <;>
      simp [rcompute_set_uniform_int, h, hl, List.countP_append,
        List.countP_cons, isUseProgram]
  case _ =>
    by_cases hl : env.uniformLoc c.program nm ≠ -1 <;>
      simp [rcompute_set_uniform_int, h, hl, glUseProgram, List.countP_append,
        List.countP_cons, isUseProgram]
  case _ =>
    by_cases hl : env.uniformLoc c.program nm ≠ -1 <;>
      simp [rcompute_set_uniform_uint, h, hl, List.countP_append,
        List.countP_cons, isUseProgram]
  case _ =>
    by_cases hl : env.uniformLoc c.program nm ≠ -1 <;>
      simp [rcompute_set_uniform_uint, h, hl, glUseProgram, List.countP_append,
        List.countP_cons, isUseProgram]
  case _ =>
    by_cases hl : env.uniformLoc c.program nm ≠ -1 <;>
      simp [rcompute_set_uniform_float, h, hl, List.countP_append,
        List.countP_cons, isUseProgram]
  case _ =>
    by_cases hl : env.uniformLoc c.program nm ≠ -1 <;>
      simp [rcompute_set_uniform_float, h, hl, glUseProgram, List.countP_append,
        List.countP_cons, isUseProgram]
  case _ =>
    by_cases hl : env.uniformLoc c.program nm ≠ -1 <;>
      simp [rcompute_set_uniform_vec2, h, hl, List.countP_append,
        List.countP_cons, isUseProgram]
  case _ =>
    by_cases hl : env.uniformLoc c.program nm ≠ -1 <;>
      simp [rcompute_set_uniform_vec2, h, hl, glUseProgram, List.countP_append,
        List.countP_cons, isUseProgram]
  case _ =>
    by_cases hl : env.uniformLoc c.program nm ≠ -1 <;>
      simp [rcompute_set_uniform_vec3, h, hl, List.countP_append,
        List.countP_cons, isUseProgram]
  case _ =>
    by_cases hl : env.uniformLoc c.program nm ≠ -1 <;>
      simp [rcompute_set_uniform_vec3, h, hl, glUseProgram, List.countP_append,
        List.countP_cons, isUseProgram]
  case _ =>
    by_cases hl : env.uniformLoc c.program nm ≠ -1 <;>
      simp [rcompute_set_uniform_vec4, h, hl, List.countP_append,
        List.countP_cons, isUseProgram]
  case _ =>
    by_cases hl : env.uniformLoc c.program nm ≠ -1 <;>
      simp [rcompute_set_uniform_vec4, h, hl, glUseProgram, List.countP_append,
        List.countP_cons, isUseProgram]
  case _ =>
    by_cases hl : env.uniformLoc c.program nm ≠ -1 <;>
      simp [rcompute_set_uniform_mat4, h, hl, List.countP_append,
        List.countP_cons, isUseProgram]
  case _ =>
    by_cases hl : env.uniformLoc c.program nm ≠ -1 <;>
      simp [rcompute_set_uniform_mat4, h, hl, glUseProgram, List.countP_append,
        List.countP_cons, isUseProgram]
  case _ =>
    simp [rcompute_run, h, glUseProgram, glDispatchCompute, glMemoryBarrier,
      List.append_assoc]
  case _ =>
    rcases hcf : rcompute_compile_file env (some p) st with ⟨np, st1⟩
    by_cases hnp : np = 0
    · exfalso
      apply h
      simp [rcompute_reload_shader, hcf, hnp]
    · by_cases hop : c.program ≠ 0 <;>
        simp [rcompute_reload_shader, hcf, hnp, hop]

/-- Witness for the amended C6: with a differing cache the int setter
binds program 5 and updates the cache; `rcompute_run` then still re-binds
unconditionally. -/
theorem c6_bind_cache_amended_witness :
    (rcompute_set_uniform_int envOk
      (some { window := 1, program := 5, last_program := 0 })
      (some ['u']) 3 initState).1 =
        some { window := 1, program := 5, last_program := 5 } ∧
    (rcompute_run (some { window := 1, program := 5, last_program := 5 })
      2 2 2 initState).calls = initState.calls ++
        [GLCall.useProgram 5, GLCall.dispatchCompute 2 2 2,
         GLCall.memoryBarrier GL_SHADER_STORAGE_BARRIER_BIT] := by
  constructor
  · exact ((c6_bind_cache_amended envOk
      { window := 1, program := 5, last_program := 0 } ['u'] 3 0 0 0 0 0 0 []
      [] 2 2 2 initState).1.2 (by decide)).1
  · exact (c6_bind_cache_amended envOk
      { window := 1, program := 5, last_program := 5 } ['u'] 3 0 0 0 0 0 0 []
      [] 2 2 2 initState).2.2.2.2.2.2.2.1 (by decide)

/-- Counterexample for C7: the barrier that `rcompute_run` issues after
the dispatch carries only GL_SHADER_STORAGE_BARRIER_BIT; no
full-visibility barrier (GL_ALL_BARRIER_BITS, the mask the library's own
`rcompute_barrier_all` uses) is issued. -/
theorem c7_barrier_mask_counterexample :
    GLCall.memoryBarrier GL_SHADER_STORAGE_BARRIER_BIT ∈
      (rcompute_run (some { window := 1, program := 5, last_program := 0 })
        2 3 4 initState).calls ∧
    GLCall.memoryBarrier GL_ALL_BARRIER_BITS ∉
      (rcompute_run (some { window := 1, program := 5, last_program := 0 })
        2 3 4 initState).calls ∧
    GL_SHADER_STORAGE_BARRIER_BIT ≠ GL_ALL_BARRIER_BITS ∧
    rcompute_barrier_all initState =
      { initState with calls := [GLCall.memoryBarrier GL_ALL_BARRIER_BITS] } := by
  decide

/-- C7 amended: for every context, `rcompute_run` on a NULL context or a
zero active program records the error and issues neither a dispatch nor a
barrier; otherwise it binds the active program, dispatches the grid
(nx, ny, nz), and unconditionally issues a memory barrier with
GL_SHADER_STORAGE_BARRIER_BIT (shader-storage visibility, not the
full-visibility GL_ALL_BARRIER_BITS mask) immediately afterward. -/
theorem c7_run_dispatch_amended (c : rcompute) (nx ny nz : Int)
    (st : RCState) :
    ((rcompute_run none nx ny nz st).lastError =
        String.toList "Invalid compute context or program" ∧
      (rcompute_run none nx ny nz st).calls = st.calls) ∧
    (c.program = 0 →
      (rcompute_run (some c) nx ny nz st).lastError =
        String.toList "Invalid compute context or program" ∧
      (rcompute_run (some c) nx ny nz st).calls = st.calls) ∧
    (c.program ≠ 0 →
      (rcompute_run (some c) nx ny nz st).calls = st.calls ++
        [GLCall.useProgram c.program, GLCall.dispatchCompute nx ny nz,
         GLCall.memoryBarrier GL_SHADER_STORAGE_BARRIER_BIT] ∧
      (rcompute_run (some c) nx ny nz st).lastError = st.lastError) := by
  refine ⟨⟨?_, ?_⟩, ?_, ?_⟩
  · simp [rcompute_run, rcompute__err]
  · simp [rcompute_run, rcompute__err]
  · intro h
    constructor <;> simp [rcompute_run, h, rcompute__err]
  · intro h
    constructor <;>
      simp [rcompute_run, h, glUseProgram, glDispatchCompute, glMemoryBarrier,
        List.append_assoc]

/-- Witness for the amended C7: with active program 5 the dispatch issues
exactly bind, dispatch (2,3,4) and the shader-storage barrier. -/
theorem c7_run_dispatch_amended_witness :
    (rcompute_run (some { window := 1, program := 5, last_program := 0 })
      2 3 4 initState).calls = initState.calls ++
      [GLCall.useProgram 5, GLCall.dispatchCompute 2 3 4,
       GLCall.memoryBarrier GL_SHADER_STORAGE_BARRIER_BIT] := by
  exact ((c7_run_dispatch_amended
    { window := 1, program := 5, last_program := 0 } 2 3 4 initState).2.2
    (by decide)).1

/-- Concrete state for the double-destroy counterexample: window 2 and
program 5 are alive. -/
def stC8 : RCState := { initState with windows := [2], programs := [5] }

/-- Context referring to window 2 and program 5. -/
def cC8 : rcompute := { window := 2, program := 5, last_program := 0 }

/-- Counterexample for C8: the second `rcompute_destroy` on the same
context is not a no-op — the context's fields are never reset, so the
second call issues `glfwDestroyWindow` on a window that is no longer
alive (and `glDeleteProgram` on the dead program), changing the state
again. -/
theorem c8_double_destroy_counterexample :
    rcompute_destroy (some cC8) (rcompute_destroy (some cC8) stC8) ≠
      rcompute_destroy (some cC8) stC8 ∧
    cC8.window ∉ (rcompute_destroy (some cC8) stC8).windows ∧
    (rcompute_destroy (some cC8) (rcompute_destroy (some cC8) stC8)).calls.countP
      isDestroyWindow = 2 := by
  decide

/-- C8 amended: `rcompute_buffer_destroy` is idempotent — the sentinel 0
is a strict no-op recording no error, and a second destroy of the same
nonzero handle leaves the buffer table and error slot unchanged (the
device silently ignores the stale name).  `rcompute_destroy`, however,
does not reset the context's fields, so a second call on the same context
re-issues `glDeleteProgram` and `glfwDestroyWindow` on the stale handles
— the window so destroyed is no longer alive after the first call. -/
theorem c8_destroy_amended (b : Nat) (c : rcompute) (st : RCState) :
    (rcompute_buffer_destroy 0 st = st) ∧
    (b ≠ 0 →
      List.lookup b (rcompute_buffer_destroy b st).buffers = none ∧
      (rcompute_buffer_destroy b (rcompute_buffer_destroy b st)).buffers =
        (rcompute_buffer_destroy b st).buffers ∧
      (rcompute_buffer_destroy b (rcompute_buffer_destroy b st)).lastError =
        (rcompute_buffer_destroy b st).lastError) ∧
    (c.program ≠ 0 → c.window ≠ 0 →
      c.window ∉ (rcompute_destroy (some c) st).windows ∧
      (rcompute_destroy (some c) (rcompute_destroy (some c) st)).calls =
        (rcompute_destroy (some c) st).calls ++
          [GLCall.deleteProgram c.program, GLCall.destroyWindow c.window]) := by
  refine ⟨?_, ?_, ?_⟩
  · simp [rcompute_buffer_destroy]
  · intro hb
    refine ⟨?_, ?_, ?_⟩
    · simp only [rcompute_buffer_destroy, if_pos hb, glDeleteBuffers]
      exact lookup_eraseKey_self b st.buffers
    · simp only [rcompute_buffer_destroy, if_pos hb, glDeleteBuffers, eraseKey]
      exact filter_idem _ _
    · simp [rcompute_buffer_destroy, hb, glDeleteBuffers]
  · intro hp hw
    constructor
    · simp [rcompute_destroy, hp, hw, glDeleteProgram, glfwDestroyWindow,
        List.mem_filter]
    · simp [rcompute_destroy, hp, hw, glDeleteProgram, glfwDestroyWindow,
        List.append_assoc]

/-- Witness for the amended C8: destroying buffer 1 twice leaves the
table empty both times with no error recorded. -/
theorem c8_destroy_amended_witness :
    List.lookup 1 (rcompute_buffer_destroy 1 stC1).buffers = none ∧
    (rcompute_buffer_destroy 1 (rcompute_buffer_destroy 1 stC1)).buffers =
      (rcompute_buffer_destroy 1 stC1).buffers := by
  have h := (c8_destroy_amended 1 cC8 stC1).2.1 (by decide)
  exact ⟨h.1, h.2.1⟩

/-- Environment whose elapsed-time oracle reports 7000000 ns (an amount
exactly representable after the millisecond conversion). -/
def envC9 : Env :=
  { glfwInitOk := true, createWindowOk := true, glewOk := true,
    compileOk := fun _ => true, linkOk := fun _ => true,
    shaderLog := fun _ => [], programLog := fun _ => [],
    fs := fun _ => none, shortRead := fun _ => false,
    uniformLoc := fun _ _ => -1, elapsed := fun _ => 7000000 }

/-- Counterexample for C9: in the call sequence begin, end, end the
second `rcompute_timer_end` has no matching `rcompute_timer_begin`, yet
it records no error (the slot stays empty and `rcompute_get_last_error`
still returns NULL) and returns the stale query result 7.0, not 0.0. -/
theorem c9_timer_end_counterexample :
    (rcompute_timer_end envC9
      (rcompute_timer_end envC9 (rcompute_timer_begin initState)).2).2.lastError
        = [] ∧
    rcompute_get_last_error
      (rcompute_timer_end envC9
        (rcompute_timer_end envC9 (rcompute_timer_begin initState)).2).2 = none ∧
    (rcompute_timer_end envC9
      (rcompute_timer_end envC9 (rcompute_timer_begin initState)).2).1 = 7 ∧
    (7 : Rat) ≠ 0 := by
  refine ⟨by decide, by decide, ?_, by norm_num⟩
  norm_num [rcompute_timer_begin, rcompute_timer_end, initState, envC9,
    rcompute__err]

/-- C9 amended: `rcompute_timer_end` records the error and returns
exactly 0.0 precisely when no `rcompute_timer_begin` has ever run in the
process (the query object was never created); once any begin has created
the query object, a later unmatched end passes the guard, records no
error, and returns the device-reported elapsed time.  `timer_begin`
always leaves the query object created. -/
theorem c9_timer_end_amended (env : Env) (st : RCState) :
    (st.queryId = 0 →
      (rcompute_timer_end env st).1 = 0 ∧
      (rcompute_timer_end env st).2.lastError =
        String.toList "Timer not started" ∧
      (rcompute_timer_end env st).2.calls = st.calls) ∧
    (st.queryId ≠ 0 →
      (rcompute_timer_end env st).2.lastError = st.lastError ∧
      (rcompute_timer_end env st).1 =
        (env.elapsed st.queryId : Rat) / 1000000) ∧
    (st.nextQuery ≠ 0 → (rcompute_timer_begin st).queryId ≠ 0) := by
  refine ⟨?_, ?_, ?_⟩
  · intro h
    refine ⟨?_, ?_, ?_⟩ <;> simp [rcompute_timer_end, h, rcompute__err]
  · intro h
    constructor <;> simp [rcompute_timer_end, h]
  · intro h
    by_cases hq : st.queryId = 0 <;> simp [rcompute_timer_begin, hq, h]

/-- Witness for the amended C9: from the fresh state (no begin ever ran)
`rcompute_timer_end` returns 0 and records the message. -/
theorem c9_timer_end_amended_witness :
    (rcompute_timer_end envC9 initState).1 = 0 ∧
    (rcompute_timer_end envC9 initState).2.lastError =
      String.toList "Timer not started" := by
  have h := (c9_timer_end_amended envC9 initState).1 (by decide)
  exact ⟨h.1, h.2.1⟩

/-- C10: NULL entries in the defines array are silently skipped — the
emitted define lines, the preprocessed source, and the whole
compile-with-defines call coincide with those for the list of the
remaining non-NULL entries kept in their original relative order, so a
NULL contributes no line and records no error. -/
theorem c10_null_defines_skipped (env : Env) (s : List Char)
    (defines : List (Option (List Char))) (st : RCState) :
    rcompute__define_lines defines =
      rcompute__define_lines ((defines.filterMap id).map some) ∧
    rcompute_preprocess s defines =
      rcompute_preprocess s ((defines.filterMap id).map some) ∧
    rcompute_compile_with_defines env (some s) defines st =
      rcompute_compile_with_defines env (some s)
        ((defines.filterMap id).map some) st := by
  have hlines : rcompute__define_lines defines =
      rcompute__define_lines ((defines.filterMap id).map some) := by
    induction defines with
    | nil => rfl
    | cons d t ih =>
      match d with
      | none => simpa [rcompute__define_lines] using ih
      | some dd =>
        simp only [rcompute__define_lines, List.filterMap_cons, id,
          List.map_cons, List.foldr_cons] at ih ⊢
        rw [ih]
  have hpre : rcompute_preprocess s defines =
      rcompute_preprocess s ((defines.filterMap id).map some) := by
    unfold rcompute_preprocess
    rw [hlines]
  refine ⟨hlines, hpre, ?_⟩
  simp only [rcompute_compile_with_defines]
  rw [hpre]

end RCompute
